import Mathlib

/-!
Verification of the attachment-processing pipeline of gkeep-to-notion.

The definitions below are a shallow embedding of the Python sources under
`src/gkeep_to_notion/`:
  * `utils.py`   — `sanitize_filename`
  * `config.py`  — the `Config` class (its class attributes)
  * `api.py`     — `format_text_with_chatgpt`
  * `ocr.py`     — `ocr_image`
  * `processors.py` — `process_attachment`, the result-gathering of `process_note`
  * `output.py`  — `create_markdown` (metadata/attachment sections)

External collaborators (the Tesseract extraction call, the HTTPS endpoint,
the filesystem cache directories, `datetime` formatting) are modelled as
explicit parameters: an extraction oracle, a per-attempt API-response oracle,
caches as partial maps from file name to file content, and a date-rendering
function.  Python exceptions are modelled with `Except`; a Python attribute
that a class does not define is modelled as an `Option` field holding `none`
(attribute access on it raises `AttributeError`).
-/

/-- Model of Python `str.strip`-style stripping on a list:
drop matching elements from both ends. -/
def stripBoth {α : Type} (p : α → Bool) (l : List α) : List α :=
  ((l.dropWhile p).reverse.dropWhile p).reverse

/-- Model of Python `str.strip()` (no argument): strip whitespace from both
ends of a string. -/
def pyStrip (s : String) : String :=
  String.mk (stripBoth Char.isWhitespace s.data)

/-- Model of `os.path.basename` on POSIX: the part of the path after the
last slash. -/
def basename (p : String) : String :=
  String.mk ((p.data.reverse.takeWhile (fun c => c ≠ '/')).reverse)

/-- Model of `os.path.join a b` (POSIX, the two-argument uses in the source). -/
def joinPath (a b : String) : String :=
  if b.data.head? = some '/' then b
  else if a = "" then b
  else if a.data.getLast? = some '/' then a ++ b
  else a ++ "/" ++ b

/-- Characters replaced by `sanitize_filename` in `utils.py`
(the regex class `[<>:"/\\|?*]`). -/
def isUnsafeChar (c : Char) : Bool :=
  c = '<' || c = '>' || c = ':' || c = '"' || c = '/' || c = '\\' ||
  c = '|' || c = '?' || c = '*'

/-- Embedding of `utils.sanitize_filename` (with the default replacement
`"_"`): replace unsafe characters by `_`, strip whitespace, strip `_`
from both ends, truncate to 255 characters. -/
def sanitize_filename (filename : String) : String :=
  let sanitized := filename.data.map (fun c => if isUnsafeChar c then '_' else c)
  String.mk (((stripBoth Char.isWhitespace sanitized).dropWhile (fun c => c = '_')
      |>.reverse.dropWhile (fun c => c = '_')).reverse.take 255)

/-- Whether `sub` occurs as a contiguous run inside `l`. -/
def listIsInfix (sub : List Char) : List Char → Bool
  | [] => sub.isEmpty
  | c :: rest => sub.isPrefixOf (c :: rest) || listIsInfix sub rest

/-- Model of Python `s.startswith(pre)`. -/
def pyStartsWith (s pre : String) : Bool :=
  pre.data.isPrefixOf s.data

/-- Model of Python `sub in s` (substring containment). -/
def strContains (s sub : String) : Bool :=
  listIsInfix sub.data s.data

/-- A cache directory, as a partial map from file name to file content.
`none` models a file that does not exist (`os.path.exists` is false). -/
def Cache : Type := String → Option String

/-- The empty cache directory. -/
def cacheEmpty : Cache := fun _ => none

/-- Reading the cache file named `k` (`open(...).read()` guarded by
`os.path.exists`). -/
def cacheFind (c : Cache) (k : String) : Option String := c k

/-- Writing the cache file named `k` with content `v` (whole-file overwrite). -/
def cachePut (c : Cache) (k v : String) : Cache :=
  fun x => if x = k then some v else c x

/-- Embedding of the class attributes of `config.Config`.  The two retry
attributes are `Option`s because `config.py` defines no
`API_RETRY_ATTEMPTS` / `API_RETRY_DELAY` attribute at all, while `api.py`
reads both: an access on a missing attribute raises `AttributeError`,
modelled by the `none` case. -/
structure Config where
  DEBUG_MODE : Bool
  DEBUG_FILE_COUNT : Nat
  INPUT_FOLDER : String
  ATTACHMENTS_FOLDER : String
  OUTPUT_MARKDOWN_FOLDER : String
  OUTPUT_HTML_FOLDER : String
  USE_CHATGPT : Bool
  OPENAI_API_KEY : Option String
  OCR_CACHE_FOLDER : String
  CHATGPT_CACHE_FOLDER : String
  OCR_SEMAPHORE_LIMIT : Nat
  API_RETRY_ATTEMPTS : Option Nat
  API_RETRY_DELAY : Option Nat

/-- The attribute values as written in `config.py`.  `API_RETRY_ATTEMPTS`
and `API_RETRY_DELAY` are `none`: `config.py` never assigns them, although
`api.py` line 32-33 reads them. -/
def configDefault : Config where
  DEBUG_MODE := true
  DEBUG_FILE_COUNT := 15
  INPUT_FOLDER := "Keep"
  ATTACHMENTS_FOLDER := "Keep"
  OUTPUT_MARKDOWN_FOLDER := "output_markdown"
  OUTPUT_HTML_FOLDER := "output_html"
  USE_CHATGPT := true
  OPENAI_API_KEY := none
  OCR_CACHE_FOLDER := "ocr_cache"
  CHATGPT_CACHE_FOLDER := "chatgpt_cache"
  OCR_SEMAPHORE_LIMIT := 4
  API_RETRY_ATTEMPTS := none
  API_RETRY_DELAY := none

/-- Outcome of one `session.post` attempt in `format_text_with_chatgpt`,
as distinguished by the branches of `api.py`. -/
inductive ApiOutcome where
  | success (content : String)
  | httpError (status : Nat) (body : String)
  | noChoices
  | apiError (msg : String)
  | timeout
  | exn (msg : String)

/-- The error message `api.py` builds for each failing outcome. -/
def ApiOutcome.errorMsg : ApiOutcome → String
  | .success _ => ""
  | .httpError status body =>
      "API returned status " ++ toString status ++ ": " ++ String.mk (body.data.take 100)
  | .noChoices => "No choices in API response"
  | .apiError msg => "API error: " ++ msg
  | .timeout => "API request timed out after 30 seconds"
  | .exn msg => "API error: " ++ msg

/-- Result of a `format_text_with_chatgpt` run: the returned string (or a
raised exception), the number of `session.post` attempts issued, and the
`asyncio.sleep` backoff delays performed between attempts, in order. -/
structure FormatResult where
  text : Except String String
  requests : Nat
  delays : List Nat

/-- The `for attempt in range(retry_attempts)` loop of `api.py` lines 54-131.
`oracle attempt` is the outcome of the attempt with that index; a failing
non-final attempt sleeps `retry_delay * 2 ^ attempt` and continues, a failing
final attempt returns the message prefixed with the error marker. -/
def formatAttemptGo (oracle : Nat → ApiOutcome) (retry_attempts retry_delay : Nat) :
    Nat → Nat → FormatResult
  | _, 0 =>
    { text := .ok "❌ Failed to get response after multiple attempts",
      requests := 0, delays := [] }
  | attempt, remaining + 1 =>
    match oracle attempt with
    | .success content => { text := .ok content, requests := 1, delays := [] }
    | outcome =>
      if attempt < retry_attempts - 1 then
        let wait_time := retry_delay * 2 ^ attempt
        let rest := formatAttemptGo oracle retry_attempts retry_delay (attempt + 1) remaining
        { text := rest.text, requests := rest.requests + 1, delays := wait_time :: rest.delays }
      else
        { text := .ok ("❌ " ++ outcome.errorMsg), requests := 1, delays := [] }

/-- The loop runs the attempts with indices `0, 1, ..., retry_attempts - 1`;
falling out of the loop (an empty `range`) reaches the final generic return
of line 131. -/
def formatAttemptLoop (oracle : Nat → ApiOutcome) (retry_attempts retry_delay : Nat) :
    FormatResult :=
  formatAttemptGo oracle retry_attempts retry_delay 0 retry_attempts

/-- Embedding of `api.format_text_with_chatgpt`.  The guard of line 28
(`not raw_text or len(raw_text.strip()) < 10`) returns the "too short"
sentinel with no request; otherwise lines 32-33 read
`Config.API_RETRY_ATTEMPTS` and `Config.API_RETRY_DELAY`, raising
`AttributeError` when `config.py` does not define them; otherwise the
retry loop runs from attempt 0. -/
def format_text_with_chatgpt (cfg : Config) (oracle : Nat → ApiOutcome)
    (raw_text : String) : FormatResult :=
  if raw_text = "" ∨ (pyStrip raw_text).length < 10 then
    { text := .ok "❌ Text too short for processing", requests := 0, delays := [] }
  else
    match cfg.API_RETRY_ATTEMPTS with
    | none =>
      { text := .error "AttributeError: type object Config has no attribute API_RETRY_ATTEMPTS",
        requests := 0, delays := [] }
    | some retry_attempts =>
      match cfg.API_RETRY_DELAY with
      | none =>
        { text := .error "AttributeError: type object Config has no attribute API_RETRY_DELAY",
          requests := 0, delays := [] }
      | some retry_delay => formatAttemptLoop oracle retry_attempts retry_delay

/-- The external text-extraction collaborator of the OCR stage: for an image
path, `some text` models `Image.open` / preprocessing / `pytesseract`
succeeding with that output, `none` models an exception raised anywhere in
the `try` block of `ocr.py`. -/
structure OcrEnv where
  extract : String → Option String

/-- Result of an `ocr_image` run: the returned text, the OCR cache directory
after the run, the number of extraction operations performed, and the number
of semaphore slots acquired. -/
structure OcrOut where
  text : String
  cache : Cache
  extractions : Nat
  slots : Nat

/-- The cache file name `ocr.py` lines 30-33 computes for an image path. -/
def ocrCacheKey (image_path : String) : String :=
  sanitize_filename (basename image_path) ++ ".txt"

/-- The cache-hit condition of `ocr.py` lines 36-40: the cache file exists
and its stripped content is non-empty. -/
def ocrHit (cache : Cache) (image_path : String) : Bool :=
  match cacheFind cache (ocrCacheKey image_path) with
  | some content => pyStrip content != ""
  | none => false

/-- The cache-miss branch of `ocr.py` lines 42-68: acquire a semaphore slot,
run preprocessing and extraction; on success strip the text, write it to the
cache file (even when empty) and return it; on an exception return the empty
string without writing the cache. -/
def ocrMissBranch (env : OcrEnv) (cache : Cache) (cache_file image_path : String) : OcrOut :=
  match env.extract image_path with
  | some raw =>
    let text := pyStrip raw
    { text := text, cache := cachePut cache cache_file text, extractions := 1, slots := 1 }
  | none => { text := "", cache := cache, extractions := 1, slots := 1 }

/-- Embedding of `ocr.ocr_image`: return the stripped cached text when the
cache file exists with non-empty stripped content, otherwise run the
cache-miss branch under the semaphore. -/
def ocr_image (env : OcrEnv) (cache : Cache) (image_path : String) : OcrOut :=
  let cache_file := ocrCacheKey image_path
  match cacheFind cache cache_file with
  | some content =>
    let cached_text := pyStrip content
    if cached_text ≠ "" then
      { text := cached_text, cache := cache, extractions := 0, slots := 0 }
    else
      ocrMissBranch env cache cache_file image_path
  | none => ocrMissBranch env cache cache_file image_path

/-- Result of a `process_attachment` run: the `(ocr_text, formatted_text)`
pair of the source together with both cache directories after the run and
counters for the external operations performed. -/
structure AttachmentOut where
  ocr_text : String
  formatted_text : String
  ocrCache : Cache
  chatgptCache : Cache
  ocrExtractions : Nat
  apiCalls : Nat
  requests : Nat

/-- The direct ChatGPT-cache check of `processors.py` lines 43-49: when the
cache file exists and its stripped content is non-empty and does not start
with the error marker, that content is returned; otherwise the check falls
through. -/
def validCachedFormatted (chatgptCache : Cache) (file_path : String) : Option String :=
  let file_basename := sanitize_filename (basename file_path)
  match cacheFind chatgptCache (file_basename ++ ".txt") with
  | some content =>
    let formatted_text := pyStrip content
    if formatted_text ≠ "" ∧ pyStartsWith formatted_text "❌" = false then
      some formatted_text
    else none
  | none => none

/-- Embedding of `processors.process_attachment`: run OCR, and when ChatGPT
is enabled, use a valid cached formatted text if present, skip formatting
when the OCR text is empty or whitespace, and otherwise call
`format_text_with_chatgpt` and cache its return value.  A raised exception
propagates as `Except.error`. -/
def process_attachment (cfg : Config) (env : OcrEnv) (oracle : Nat → ApiOutcome)
    (ocrCache chatgptCache : Cache) (file_path : String) : Except String AttachmentOut :=
  let o := ocr_image env ocrCache file_path
  let ocr_text := o.text
  if cfg.USE_CHATGPT then
    match validCachedFormatted chatgptCache file_path with
    | some formatted_text =>
      .ok { ocr_text, formatted_text, ocrCache := o.cache, chatgptCache,
            ocrExtractions := o.extractions, apiCalls := 0, requests := 0 }
    | none =>
      if pyStrip ocr_text = "" then
        .ok { ocr_text, formatted_text := ocr_text, ocrCache := o.cache, chatgptCache,
              ocrExtractions := o.extractions, apiCalls := 0, requests := 0 }
      else
        let fr := format_text_with_chatgpt cfg oracle ocr_text
        match fr.text with
        | .error e => .error e
        | .ok formatted_text =>
          .ok { ocr_text, formatted_text, ocrCache := o.cache,
                chatgptCache :=
                  cachePut chatgptCache (sanitize_filename (basename file_path) ++ ".txt")
                    formatted_text,
                ocrExtractions := o.extractions, apiCalls := 1, requests := fr.requests }
  else
    .ok { ocr_text, formatted_text := ocr_text, ocrCache := o.cache, chatgptCache,
          ocrExtractions := o.extractions, apiCalls := 0, requests := 0 }

/-- The note fields `output.create_markdown` reads (labels are already the
`name` values of the label dictionaries, attachments the `filePath` values). -/
structure NoteRecord where
  title : String
  createdTimestampUsec : Nat
  userEditedTimestampUsec : Nat
  textContent : String
  textContentHtml : String
  labels : List String
  attachments : List String

/-- The content section of `output.create_markdown` lines 38-45. -/
def contentSection (text_content html_content : String) : String :=
  if html_content ≠ "" then
    "## Note Content (HTML)\n\n" ++ text_content ++ "\n\n" ++
    "*Note: This note contains formatted HTML content that can be viewed in the HTML version.*\n\n"
  else if text_content ≠ "" then
    "## Note Content\n\n" ++ text_content ++ "\n\n"
  else ""

/-- The per-attachment loop of `output.create_markdown` lines 52-56,
`idx` starting at 1. -/
def attachmentItems (use_chatgpt : Bool) : List (String × String) → Nat → String
  | [], _ => ""
  | (ocr_text, formatted_text) :: rest, idx =>
    "### Attachment " ++ toString idx ++ "\n\n" ++
    "#### Raw OCR Output:\n```\n" ++ ocr_text ++ "\n```\n\n" ++
    (if formatted_text ≠ ocr_text ∧ use_chatgpt = true then
      "#### ChatGPT Output:\n" ++ formatted_text ++ "\n\n"
    else "") ++
    attachmentItems use_chatgpt rest (idx + 1)

/-- The attachment section of `output.create_markdown` lines 48-56: it is
added only when `ocr_results` is non-empty AND its first element is a
non-empty string (Python truthiness of `ocr_results and ocr_results[0]`). -/
def attachmentSection (use_chatgpt : Bool) (ocr_results formatted_texts : List String) :
    String :=
  match ocr_results with
  | [] => ""
  | first :: _ =>
    if first = "" then ""
    else "## Attachments\n\n" ++
      attachmentItems use_chatgpt (ocr_results.zip formatted_texts) 1

/-- Embedding of `output.create_markdown`.  `tsToDate` models the external
`timestamp_to_date` collaborator.  The string literal reproduces the
indented f-string template of lines 59-70, and the final `.strip()`. -/
def create_markdown (tsToDate : Nat → String) (cfg : Config) (note : NoteRecord)
    (ocr_results formatted_texts : List String) : String :=
  let title := note.title
  let created_date := tsToDate note.createdTimestampUsec
  let edited_date := tsToDate note.userEditedTimestampUsec
  let text_content := pyStrip note.textContent
  let html_content := pyStrip note.textContentHtml
  let labels := String.intercalate ", " note.labels
  let content_section := contentSection text_content html_content
  let attachment_section := attachmentSection cfg.USE_CHATGPT ocr_results formatted_texts
  pyStrip ("\n    # " ++ title ++ "\n\n    **Created:** " ++ created_date ++
    "  \n    **Last Edited:** " ++ edited_date ++ "  \n    **Labels:** " ++ labels ++
    "  \n\n    ---\n\n    " ++ content_section ++ "\n    " ++ attachment_section ++ "\n    ")

/-- Pair each element of a list with its position, starting at `k`. -/
def withIdx (k : Nat) : List α → List (Nat × α)
  | [] => []
  | a :: as => (k, a) :: withIdx (k + 1) as

/-- How `asyncio.gather` delivers results: each completed task reports
`(index, value)`; the caller's result list has, at every slot `i < n`, the
value reported for index `i` (`dflt` stands for a slot no event filled). -/
def reassemble (n : Nat) (events : List (Nat × α)) (dflt : α) : List α :=
  (List.range n).map (fun i => ((events.find? (fun e => e.1 == i)).map Prod.snd).getD dflt)

/-- The attachment resolution of `processors.process_note` lines 97-101:
join each attachment reference onto the attachments folder and keep only
the paths that exist. -/
def resolveAttachmentPaths (pathExists : String → Bool) (attachments_folder : String)
    (note : NoteRecord) : List String :=
  (note.attachments.map (fun a => joinPath attachments_folder a)).filter pathExists

/-- The result-gathering of `processors.process_note` lines 103-107:
one task per resolved attachment path (in the note's attachment order);
`completed` is the stream of `(task index, task value)` completion events
in an arbitrary completion order, reassembled by position; the two
projections are the `ocr_results` and `formatted_texts` lists handed to
document generation. -/
def process_note_results (pathExists : String → Bool) (attachments_folder : String)
    (note : NoteRecord)
    (completed : List (Nat × (String × String))) : List String × List String :=
  let attachment_paths := resolveAttachmentPaths pathExists attachments_folder note
  let results := reassemble attachment_paths.length completed ("", "")
  (results.map Prod.fst, results.map Prod.snd)

/-- Phase of one logical `ocr_image` call in the concurrency model:
`pending` before the cache check, `waiting` at the semaphore after a cache
miss, `extracting` while holding a semaphore slot, `finished` after
returning. -/
inductive OcrPhase where
  | pending
  | waiting
  | extracting
  | finished
deriving DecidableEq

/-- One concurrent task: whether its cache lookup is a hit, and its phase. -/
abbrev OcrTask := Bool × OcrPhase

/-- Number of tasks currently holding a semaphore slot (between acquire and
release, which in `ocr.py` brackets exactly the extraction work). -/
def slotCount (s : List OcrTask) : Nat :=
  (s.filter (fun t => t.2 == OcrPhase.extracting)).length

/-- Interleaved small-step semantics of many concurrent `ocr_image` calls
sharing the `Config.OCR_SEMAPHORE` of capacity `limit`: a cache-hit task
returns directly from `pending`; a cache-miss task reaches the semaphore,
may acquire a slot only while fewer than `limit` tasks hold one, and
releases the slot when it finishes. -/
inductive OcrStep (limit : Nat) : List OcrTask → List OcrTask → Prop where
  | hitReturn (s : List OcrTask) (i : Nat) (h : s[i]? = some (true, OcrPhase.pending)) :
      OcrStep limit s (s.set i (true, OcrPhase.finished))
  | missEnter (s : List OcrTask) (i : Nat) (h : s[i]? = some (false, OcrPhase.pending)) :
      OcrStep limit s (s.set i (false, OcrPhase.waiting))
  | acquire (s : List OcrTask) (i : Nat) (h : s[i]? = some (false, OcrPhase.waiting))
      (hslot : slotCount s < limit) :
      OcrStep limit s (s.set i (false, OcrPhase.extracting))
  | release (s : List OcrTask) (i : Nat) (h : s[i]? = some (false, OcrPhase.extracting)) :
      OcrStep limit s (s.set i (false, OcrPhase.finished))

/-- Initial state of a batch of concurrent `ocr_image` calls on the given
image paths against a shared OCR cache: every task is pending, flagged by
whether its cache lookup hits. -/
def ocrInit (cache : Cache) (paths : List String) : List OcrTask :=
  paths.map (fun p => (ocrHit cache p, OcrPhase.pending))

/-- States reachable by interleaving the concurrent `ocr_image` calls. -/
def OcrReachable (limit : Nat) (cache : Cache) (paths : List String)
    (s : List OcrTask) : Prop :=
  Relation.ReflTransGen (OcrStep limit) (ocrInit cache paths) s

/-- An extraction collaborator whose extraction always succeeds with the
empty string (an unreadable image under a working pipeline). -/
def envExtractEmpty : OcrEnv := ⟨fun _ => some ""⟩

/-- An extraction collaborator that always raises (e.g. `Image.open` fails). -/
def envExtractFails : OcrEnv := ⟨fun _ => none⟩

/-- An extraction collaborator that always succeeds with a fixed long text. -/
def envExtractText : OcrEnv := ⟨fun _ => some "plenty of text in this scan"⟩

/-- An API collaborator answering every attempt with HTTP status 500. -/
def oracleStatus500 : Nat → ApiOutcome := fun _ => ApiOutcome.httpError 500 "boom"

/-- An API collaborator answering every attempt successfully. -/
def oracleSuccess : Nat → ApiOutcome := fun _ => ApiOutcome.success "ok"

/-- The shipped configuration extended with the retry attributes `api.py`
expects (the spec default of 3 attempts, base delay 1). -/
def configWithRetries : Config :=
  { configDefault with API_RETRY_ATTEMPTS := some 3, API_RETRY_DELAY := some 1 }

/-- The shipped configuration with ChatGPT formatting disabled
(the `--ocr-only` flag). -/
def configOcrOnly : Config := { configDefault with USE_CHATGPT := false }

/-- An OCR cache directory holding a long cached text for `img.png`. -/
def cacheWithTextEntry : Cache :=
  cachePut cacheEmpty "img.png.txt" "plenty of text in this scan"

/-- A ChatGPT cache directory holding a persisted error sentinel for
`img.png`. -/
def cacheWithSentinelEntry : Cache :=
  cachePut cacheEmpty "img.png.txt" "❌ API error: boom"

/-- An OCR cache directory whose entry for `img2.png` is an empty file. -/
def cacheWithEmptyEntry : Cache := cachePut cacheEmpty "img2.png.txt" ""

/-- An OCR cache directory holding a long cached text for `img2.png`. -/
def cacheTextEntry2 : Cache :=
  cachePut cacheEmpty "img2.png.txt" "plenty of text in this scan"

/-- A ChatGPT cache directory holding a persisted error sentinel for
`img2.png`. -/
def cacheSentinelEntry2 : Cache :=
  cachePut cacheEmpty "img2.png.txt" "❌ API error: boom"

/-- An OCR cache directory holding a valid cached text for `w.png`. -/
def cacheValidOcrEntry : Cache := cachePut cacheEmpty "w.png.txt" "scan text here"

/-- A ChatGPT cache directory holding a valid formatted text for `w.png`. -/
def cacheValidFmtEntry : Cache := cachePut cacheEmpty "w.png.txt" "formatted text"

/-- A note with two image attachments and no inline text content. -/
def sampleNote : NoteRecord :=
  { title := "Note", createdTimestampUsec := 0, userEditedTimestampUsec := 0,
    textContent := "", textContentHtml := "", labels := [],
    attachments := ["a.png", "b.png"] }


theorem dropWhile_self_idem (p : α → Bool) (l : List α) :
    (l.dropWhile p).dropWhile p = l.dropWhile p := by
  induction l with
  | nil => rfl
  | cons a as ih =>
    cases h : p a with
    | true => simp [List.dropWhile_cons, h, ih]
    | false => simp [List.dropWhile_cons, h]

theorem dropWhile_head_false (p : α → Bool) (l : List α) (x : α) (xs : List α)
    (h : l.dropWhile p = x :: xs) : p x = false := by
  induction l with
  | nil => simp at h
  | cons a as ih =>
    rw [List.dropWhile_cons] at h
    split at h
    · exact ih h
    · next hpa =>
      cases h
      simpa using hpa

theorem dropWhile_stripBoth (p : α → Bool) (l : List α) :
    (stripBoth p l).dropWhile p = stripBoth p l := by
  cases hcons : stripBoth p l with
  | nil => simp
  | cons c cs =>
    have hpre : stripBoth p l <+: l.dropWhile p := by
      have hsuf : ((l.dropWhile p).reverse).dropWhile p <:+ (l.dropWhile p).reverse :=
        List.dropWhile_suffix p
      have hrevsuf : (stripBoth p l).reverse <:+ (l.dropWhile p).reverse := by
        unfold stripBoth
        rw [List.reverse_reverse]
        exact hsuf
      exact List.reverse_suffix.mp hrevsuf
    obtain ⟨t, ht⟩ := hpre
    have hpc : p c = false := by
      apply dropWhile_head_false p l c (cs ++ t)
      rw [← ht, hcons]
      rfl
    exact List.dropWhile_cons_of_neg (by simp [hpc])

theorem stripBoth_idem (p : α → Bool) (l : List α) :
    stripBoth p (stripBoth p l) = stripBoth p l := by
  have hrev : (stripBoth p l).reverse = ((l.dropWhile p).reverse).dropWhile p := by
    unfold stripBoth
    rw [List.reverse_reverse]
  show ((((stripBoth p l).dropWhile p).reverse).dropWhile p).reverse = stripBoth p l
  rw [dropWhile_stripBoth, hrev, dropWhile_self_idem, ← hrev, List.reverse_reverse]

theorem stripBoth_length_le (p : α → Bool) (l : List α) :
    (stripBoth p l).length ≤ l.length := by
  unfold stripBoth
  rw [List.length_reverse]
  calc (((l.dropWhile p).reverse).dropWhile p).length
      ≤ ((l.dropWhile p).reverse).length := (List.dropWhile_sublist p).length_le
    _ = (l.dropWhile p).length := List.length_reverse _
    _ ≤ l.length := (List.dropWhile_sublist p).length_le

theorem pyStrip_idem (s : String) : pyStrip (pyStrip s) = pyStrip s := by
  unfold pyStrip
  exact congrArg String.mk (stripBoth_idem _ _)

theorem pyStrip_length_le (s : String) : (pyStrip s).length ≤ s.length :=
  stripBoth_length_le _ _

theorem mem_withIdx {α : Type} (l : List α) (k j : Nat) (a : α) :
    (j, a) ∈ withIdx k l ↔ ∃ m, j = k + m ∧ l[m]? = some a := by
  induction l generalizing k with
  | nil => simp [withIdx]
  | cons x xs ih =>
    simp only [withIdx, List.mem_cons, ih, Prod.mk.injEq]
    constructor
    · rintro (⟨rfl, rfl⟩ | ⟨m, rfl, hm⟩)
      · exact ⟨0, by omega, by simp⟩
      · exact ⟨m + 1, by omega, by simpa using hm⟩
    · rintro ⟨m, rfl, hm⟩
      cases m with
      | zero =>
        simp only [List.getElem?_cons_zero, Option.some.injEq] at hm
        exact Or.inl ⟨by omega, hm.symm⟩
      | succ n =>
        right
        exact ⟨n, by omega, by simpa using hm⟩

theorem reassemble_perm {α : Type} (l : List α) (events : List (Nat × α)) (d : α)
    (hperm : events.Perm (withIdx 0 l)) :
    reassemble l.length events d = l := by
  unfold reassemble
  apply List.ext_getElem
  · simp
  intro i h1 h2
  simp only [List.getElem_map, List.getElem_range]
  have hmem : (i, l[i]) ∈ events := by
    apply hperm.mem_iff.mpr
    rw [mem_withIdx]
    exact ⟨i, by omega, by simp⟩
  have hsome : (events.find? (fun e => e.1 == i)).isSome := by
    rw [List.find?_isSome]
    exact ⟨(i, l[i]), hmem, by simp⟩
  obtain ⟨e, he⟩ := Option.isSome_iff_exists.mp hsome
  have he1 : e.1 = i := by simpa using List.find?_some he
  have hval : e.2 = l[i] := by
    have hmem2 : (e.1, e.2) ∈ withIdx 0 l :=
      hperm.mem_iff.mp (by simpa using List.mem_of_find?_eq_some he)
    rw [mem_withIdx] at hmem2
    obtain ⟨m, hm1, hm2⟩ := hmem2
    have hmi : m = i := by omega
    subst hmi
    simp only [List.getElem?_eq_getElem h2, Option.some.injEq] at hm2
    exact hm2.symm
  rw [he]
  simpa using hval

/-- Weight of one task in the semaphore count. -/
def slotWeight (t : OcrTask) : Nat :=
  if t.2 = OcrPhase.extracting then 1 else 0

theorem slotCount_cons (x : OcrTask) (xs : List OcrTask) :
    slotCount (x :: xs) = slotWeight x + slotCount xs := by
  unfold slotCount slotWeight
  rw [List.filter_cons]
  by_cases h : x.2 = OcrPhase.extracting
  · simp [h, Nat.add_comm]
  · simp [h]

theorem slotCount_set (s : List OcrTask) (i : Nat) (old new : OcrTask)
    (h : s[i]? = some old) :
    slotCount (s.set i new) + slotWeight old = slotCount s + slotWeight new := by
  induction s generalizing i with
  | nil => simp at h
  | cons x xs ih =>
    cases i with
    | zero =>
      simp only [List.getElem?_cons_zero, Option.some.injEq] at h
      subst h
      simp only [List.set_cons_zero, slotCount_cons]
      omega
    | succ n =>
      simp only [List.getElem?_cons_succ] at h
      simp only [List.set_cons_succ, slotCount_cons]
      have := ih n h
      omega

/-- The two-part invariant of the OCR concurrency model: never more slot
holders than the semaphore capacity, and a cache-hit task is only ever
pending or finished (it neither waits on nor holds the semaphore). -/
def ocrInvariant (limit : Nat) (s : List OcrTask) : Prop :=
  slotCount s ≤ limit ∧
    ∀ t ∈ s, t.1 = true → t.2 = OcrPhase.pending ∨ t.2 = OcrPhase.finished

theorem ocrStep_invariant {limit : Nat} {s s2 : List OcrTask}
    (hstep : OcrStep limit s s2) (hinv : ocrInvariant limit s) :
    ocrInvariant limit s2 := by
  obtain ⟨hslot, hhit⟩ := hinv
  cases hstep with
  | hitReturn i h =>
    refine ⟨?_, ?_⟩
    · have := slotCount_set s i _ (true, OcrPhase.finished) h
      simp [slotWeight] at this
      omega
    · intro t ht htrue
      rcases List.mem_or_eq_of_mem_set ht with hmem | rfl
      · exact hhit t hmem htrue
      · exact Or.inr rfl
  | missEnter i h =>
    refine ⟨?_, ?_⟩
    · have := slotCount_set s i _ (false, OcrPhase.waiting) h
      simp [slotWeight] at this
      omega
    · intro t ht htrue
      rcases List.mem_or_eq_of_mem_set ht with hmem | rfl
      · exact hhit t hmem htrue
      · simp at htrue
  | acquire i h hlt =>
    refine ⟨?_, ?_⟩
    · have := slotCount_set s i _ (false, OcrPhase.extracting) h
      simp [slotWeight] at this
      omega
    · intro t ht htrue
      rcases List.mem_or_eq_of_mem_set ht with hmem | rfl
      · exact hhit t hmem htrue
      · simp at htrue
  | release i h =>
    refine ⟨?_, ?_⟩
    · have := slotCount_set s i _ (false, OcrPhase.finished) h
      simp [slotWeight] at this
      omega
    · intro t ht htrue
      rcases List.mem_or_eq_of_mem_set ht with hmem | rfl
      · exact hhit t hmem htrue
      · simp at htrue

theorem ocrInit_invariant (limit : Nat) (cache : Cache) (paths : List String) :
    ocrInvariant limit (ocrInit cache paths) := by
  constructor
  · have hnil : (ocrInit cache paths).filter (fun t => t.2 == OcrPhase.extracting) = [] := by
      rw [List.filter_eq_nil_iff]
      intro t ht
      unfold ocrInit at ht
      simp only [List.mem_map] at ht
      obtain ⟨p, _, rfl⟩ := ht
      simp
    unfold slotCount
    rw [hnil]
    simp
  · intro t ht htrue
    unfold ocrInit at ht
    simp only [List.mem_map] at ht
    obtain ⟨p, _, rfl⟩ := ht
    exact Or.inl rfl

theorem ocrReachable_invariant {limit : Nat} {cache : Cache} {paths : List String}
    {s : List OcrTask} (h : OcrReachable limit cache paths s) :
    ocrInvariant limit s := by
  induction h with
  | refl => exact ocrInit_invariant limit cache paths
  | tail _ hstep ih => exact ocrStep_invariant hstep ih

theorem cacheFind_cachePut_same (c : Cache) (k v : String) :
    cacheFind (cachePut c k v) k = some v := by
  unfold cacheFind cachePut
  simp

theorem ocrHit_iff (cache : Cache) (p : String) :
    ocrHit cache p = true ↔
      ∃ v, cacheFind cache (ocrCacheKey p) = some v ∧ pyStrip v ≠ "" := by
  unfold ocrHit
  cases hfind : cacheFind cache (ocrCacheKey p) with
  | none => simp
  | some v => simp [bne_iff_ne]

theorem ocr_image_hit (env : OcrEnv) (cache : Cache) (p v : String)
    (hfind : cacheFind cache (ocrCacheKey p) = some v) (hv : pyStrip v ≠ "") :
    ocr_image env cache p =
      { text := pyStrip v, cache := cache, extractions := 0, slots := 0 } := by
  simp only [ocr_image, hfind]
  simp [hv]

theorem ocr_image_miss (env : OcrEnv) (cache : Cache) (p : String)
    (h : ocrHit cache p = false) :
    ocr_image env cache p = ocrMissBranch env cache (ocrCacheKey p) p := by
  unfold ocrHit at h
  simp only [ocr_image]
  cases hfind : cacheFind cache (ocrCacheKey p) with
  | none => simp
  | some v =>
    rw [hfind] at h
    simp only [bne_iff_ne, ne_eq, decide_not] at h
    have hv : pyStrip v = "" := by
      by_contra hne
      simp [hne] at h
    simp [hv]

/-- C2.  The retry loop of `api.py` is bounded, backs off `base * 2 ^ attempt`
between attempts and returns an error-marker sentinel when all attempts fail
— but only when the configuration defines the retry attributes.  `config.py`
defines neither `API_RETRY_ATTEMPTS` (claimed default 3) nor
`API_RETRY_DELAY`, so with the shipped `Config` any text passing the
short-text guard raises `AttributeError` before any attempt is made. -/
theorem c2_retry_config_missing :
    (format_text_with_chatgpt configWithRetries oracleStatus500 "0123456789").requests = 3 ∧
    (format_text_with_chatgpt configWithRetries oracleStatus500 "0123456789").delays = [1, 2] ∧
    (format_text_with_chatgpt configWithRetries oracleStatus500 "0123456789").text =
      Except.ok "❌ API returned status 500: boom" ∧
    configDefault.API_RETRY_ATTEMPTS = none ∧
    format_text_with_chatgpt configDefault oracleSuccess "0123456789" =
      { text :=
          Except.error "AttributeError: type object Config has no attribute API_RETRY_ATTEMPTS",
        requests := 0, delays := [] } :=
  ⟨rfl, rfl, rfl, rfl, rfl⟩

/-- C3.  Any input text of length below 10 makes `format_text_with_chatgpt`
return the "too short" sentinel immediately: no request is issued, no
backoff is slept (and the function body has no cache access at all). -/
theorem c3_short_text_guard (cfg : Config) (oracle : Nat → ApiOutcome)
    (raw_text : String) (h : raw_text.length < 10) :
    format_text_with_chatgpt cfg oracle raw_text =
      { text := Except.ok "❌ Text too short for processing",
        requests := 0, delays := [] } := by
  unfold format_text_with_chatgpt
  rw [if_pos (Or.inr (Nat.lt_of_le_of_lt (pyStrip_length_le raw_text) h))]

/-- C3 witness at the concrete input `"hi"`. -/
theorem c3_short_text_guard_witness :
    "hi".length < 10 ∧
    format_text_with_chatgpt configDefault oracleSuccess "hi" =
      { text := Except.ok "❌ Text too short for processing",
        requests := 0, delays := [] } :=
  ⟨by decide, c3_short_text_guard configDefault oracleSuccess "hi" (by decide)⟩

/-- C1.  A persisted error sentinel in the formatting cache is NOT returned
as-is: the cache check of `processors.py` line 47 rejects any cached value
starting with the error marker, so `process_attachment` falls through and
invokes `format_text_with_chatgpt` again.  With the shipped `Config` this
raises `AttributeError`; with the retry attributes configured it re-issues
three network requests and overwrites the cached sentinel. -/
theorem c1_cached_sentinel_not_returned :
    validCachedFormatted cacheWithSentinelEntry "img.png" = none ∧
    cacheFind cacheWithSentinelEntry "img.png.txt" = some "❌ API error: boom" ∧
    process_attachment configDefault envExtractText oracleStatus500
        cacheWithTextEntry cacheWithSentinelEntry "img.png" =
      Except.error "AttributeError: type object Config has no attribute API_RETRY_ATTEMPTS" ∧
    (process_attachment configWithRetries envExtractText oracleStatus500
        cacheWithTextEntry cacheWithSentinelEntry "img.png").map
        (fun out => (out.formatted_text, out.apiCalls, out.requests)) =
      Except.ok ("❌ API returned status 500: boom", 1, 3) :=
  ⟨rfl, rfl, rfl, rfl⟩

/-- C4 counterexample.  On an unreadable image (`envExtractFails`) the
exception path of `ocr_image` returns the empty string WITHOUT writing the
cache file; and even when an empty extraction result is cached
(`envExtractEmpty`), the empty cached value is treated as a miss, so the
next run performs an extraction again. -/
theorem c4_empty_failure_not_persisted :
    (ocr_image envExtractFails cacheEmpty "img.png").text = "" ∧
    (ocr_image envExtractFails cacheEmpty "img.png").extractions = 1 ∧
    cacheFind (ocr_image envExtractFails cacheEmpty "img.png").cache
      (ocrCacheKey "img.png") = none ∧
    cacheFind (ocr_image envExtractEmpty cacheEmpty "img.png").cache
      (ocrCacheKey "img.png") = some "" ∧
    (ocr_image envExtractEmpty
        (ocr_image envExtractEmpty cacheEmpty "img.png").cache "img.png").extractions = 1 :=
  ⟨rfl, rfl, rfl, rfl, rfl⟩

/-- C4 as amended.  On a cache miss, a SUCCESSFUL extraction is persisted to
the OCR cache even when its stripped text is empty; a FAILED extraction
returns the empty string without writing the cache, leaving the cache
unchanged, so a repeated run on the same unreadable image performs an
extraction again. -/
theorem c4_cache_on_success_only (env : OcrEnv) (cache : Cache) (p raw : String)
    (hmiss : ocrHit cache p = false) :
    (env.extract p = some raw →
      cacheFind (ocr_image env cache p).cache (ocrCacheKey p) = some (pyStrip raw)) ∧
    (env.extract p = none →
      (ocr_image env cache p).cache = cache ∧
      (ocr_image env cache p).text = "" ∧
      (ocr_image env (ocr_image env cache p).cache p).extractions = 1) := by
  have hm := ocr_image_miss env cache p hmiss
  constructor
  · intro hx
    rw [hm]
    simp only [ocrMissBranch, hx]
    exact cacheFind_cachePut_same cache (ocrCacheKey p) (pyStrip raw)
  · intro hx
    have hbr : ocrMissBranch env cache (ocrCacheKey p) p =
        { text := "", cache := cache, extractions := 1, slots := 1 } := by
      simp only [ocrMissBranch, hx]
    rw [hm, hbr]
    exact ⟨rfl, rfl, by rw [hm, hbr]⟩

/-- C4 amended-claim witness: a concrete successful extraction on a cache
miss is persisted; evaluated through `c4_cache_on_success_only` at `img.png`
with the empty cache. -/
theorem c4_cache_on_success_only_witness :
    ocrHit cacheEmpty "img.png" = false ∧
    cacheFind (ocr_image envExtractText cacheEmpty "img.png").cache
      (ocrCacheKey "img.png") = some (pyStrip "plenty of text in this scan") :=
  ⟨by decide,
   (c4_cache_on_success_only envExtractText cacheEmpty "img.png"
      "plenty of text in this scan" (by decide)).1 rfl⟩

/-- C5 counterexample.  A populated cache does not guarantee an
external-call-free second invocation: an OCR cache entry holding the empty
string is treated as a miss and extraction runs again, and a formatting
cache entry holding the error sentinel is rejected by the cache check, so
`process_attachment` invokes the formatting call again (raising
`AttributeError` under the shipped `Config`, re-issuing a network request
with the retry attributes configured). -/
theorem c5_populated_cache_recomputes :
    cacheFind cacheWithEmptyEntry (ocrCacheKey "img2.png") = some "" ∧
    (ocr_image envExtractEmpty cacheWithEmptyEntry "img2.png").extractions = 1 ∧
    cacheFind cacheSentinelEntry2 "img2.png.txt" = some "❌ API error: boom" ∧
    (process_attachment configWithRetries envExtractText oracleStatus500
        cacheTextEntry2 cacheSentinelEntry2 "img2.png").map (fun o => (o.apiCalls, o.requests)) =
      Except.ok (1, 3) ∧
    process_attachment configDefault envExtractText oracleStatus500
        cacheTextEntry2 cacheSentinelEntry2 "img2.png" =
      Except.error "AttributeError: type object Config has no attribute API_RETRY_ATTEMPTS" :=
  ⟨rfl, rfl, rfl, rfl, rfl⟩

/-- C5 as amended.  When the OCR cache holds a non-empty stripped value and
the formatting cache holds a valid entry (non-empty, not an error sentinel),
a second invocation returns the identical values and performs zero external
calls: no extraction, no semaphore slot, no formatting invocation, no
network request, and both caches are left unchanged. -/
theorem c5_valid_cache_idempotent (cfg : Config) (env : OcrEnv)
    (oracle : Nat → ApiOutcome) (ocrC chatC : Cache) (p v w : String)
    (hv : cacheFind ocrC (ocrCacheKey p) = some v) (hvne : pyStrip v ≠ "")
    (hw : validCachedFormatted chatC p = some w) (hcg : cfg.USE_CHATGPT = true) :
    ocr_image env ocrC p =
      { text := pyStrip v, cache := ocrC, extractions := 0, slots := 0 } ∧
    ocr_image env (ocr_image env ocrC p).cache p = ocr_image env ocrC p ∧
    process_attachment cfg env oracle ocrC chatC p =
      Except.ok { ocr_text := pyStrip v, formatted_text := w, ocrCache := ocrC,
                  chatgptCache := chatC, ocrExtractions := 0, apiCalls := 0,
                  requests := 0 } := by
  have h1 := ocr_image_hit env ocrC p v hv hvne
  refine ⟨h1, ?_, ?_⟩
  · rw [h1]
    exact h1
  · simp only [process_attachment, hcg, hw, h1, if_true]

/-- C5 amended-claim witness at a concrete populated pair of caches. -/
theorem c5_valid_cache_idempotent_witness :
    process_attachment configDefault envExtractFails oracleSuccess
        cacheValidOcrEntry cacheValidFmtEntry "w.png" =
      Except.ok { ocr_text := pyStrip "scan text here", formatted_text := "formatted text",
                  ocrCache := cacheValidOcrEntry, chatgptCache := cacheValidFmtEntry,
                  ocrExtractions := 0, apiCalls := 0, requests := 0 } :=
  (c5_valid_cache_idempotent configDefault envExtractFails oracleSuccess
    cacheValidOcrEntry cacheValidFmtEntry "w.png" "scan text here" "formatted text"
    (by decide) (by decide) (by decide) rfl).2.2

set_option maxRecDepth 8000 in
/-- C6.  `create_markdown` guards the whole attachment section on the
truthiness of the FIRST OCR result: with two resolved attachments whose
first OCR text is empty, the generated Markdown contains neither the
attachments header nor the second attachment's extracted text, although
the same note with a non-empty first OCR text does show it. -/
theorem c6_markdown_drops_attachment_content :
    (resolveAttachmentPaths (fun _ => true) "Keep" sampleNote).length = 2 ∧
    strContains (create_markdown (fun _ => "2024-01-01") configDefault sampleNote
        ["", "second scan text"] ["", "second scan text"]) "Attachments" = false ∧
    strContains (create_markdown (fun _ => "2024-01-01") configDefault sampleNote
        ["", "second scan text"] ["", "second scan text"]) "second scan text" = false ∧
    strContains (create_markdown (fun _ => "2024-01-01") configDefault sampleNote
        ["first scan text", "second scan text"]
        ["first scan text", "second scan text"]) "second scan text" = true :=
  ⟨rfl, by decide, by decide, by decide⟩

/-- C7.  With ChatGPT formatting disabled, or with it enabled but no valid
cached entry and an empty-or-whitespace OCR text, `process_attachment`
returns successfully with `formatted_text` equal to the raw OCR text and
performs no formatting invocation and no network request. -/
theorem c7_disabled_or_empty_passthrough (cfg : Config) (env : OcrEnv)
    (oracle : Nat → ApiOutcome) (ocrC chatC : Cache) (p : String)
    (h : cfg.USE_CHATGPT = false ∨
      (validCachedFormatted chatC p = none ∧ pyStrip (ocr_image env ocrC p).text = "")) :
    ∃ out, process_attachment cfg env oracle ocrC chatC p = Except.ok out ∧
      out.formatted_text = out.ocr_text ∧ out.apiCalls = 0 ∧ out.requests = 0 := by
  rcases h with hoff | ⟨hnone, hempty⟩
  · simp only [process_attachment, hoff, Bool.false_eq_true, if_false]
    exact ⟨_, rfl, rfl, rfl, rfl⟩
  · cases hcg : cfg.USE_CHATGPT with
    | false =>
      simp only [process_attachment, hcg, Bool.false_eq_true, if_false]
      exact ⟨_, rfl, rfl, rfl, rfl⟩
    | true =>
      simp only [process_attachment, hcg, hnone, hempty, if_true]
      exact ⟨_, rfl, rfl, rfl, rfl⟩

/-- C7 witness: disabled formatting on an empty cache and failing extraction
still returns a passthrough pair. -/
theorem c7_disabled_or_empty_passthrough_witness :
    ∃ out, process_attachment configOcrOnly envExtractFails oracleSuccess
        cacheEmpty cacheEmpty "x.png" = Except.ok out ∧
      out.formatted_text = out.ocr_text ∧ out.apiCalls = 0 ∧ out.requests = 0 :=
  c7_disabled_or_empty_passthrough configOcrOnly envExtractFails oracleSuccess
    cacheEmpty cacheEmpty "x.png" (Or.inl rfl)

/-- C8.  However the concurrent attachment tasks complete (`completed` is
any permutation of the indexed task results), the gathered `ocr_results`
and `formatted_texts` lists are in the note's original attachment order. -/
theorem c8_results_in_attachment_order (pathExists : String → Bool)
    (attachments_folder : String) (note : NoteRecord) (f : String → String × String)
    (completed : List (Nat × (String × String)))
    (hperm : completed.Perm
      (withIdx 0 ((resolveAttachmentPaths pathExists attachments_folder note).map f))) :
    process_note_results pathExists attachments_folder note completed =
      ((resolveAttachmentPaths pathExists attachments_folder note).map (fun p => (f p).1),
       (resolveAttachmentPaths pathExists attachments_folder note).map (fun p => (f p).2)) := by
  simp only [process_note_results]
  rw [show (resolveAttachmentPaths pathExists attachments_folder note).length =
      ((resolveAttachmentPaths pathExists attachments_folder note).map f).length by simp]
  rw [reassemble_perm _ completed ("", "") hperm]
  simp [List.map_map, Function.comp]

/-- C8 witness: two tasks completing in reversed order still yield results
in attachment order. -/
theorem c8_results_in_attachment_order_witness :
    process_note_results (fun _ => true) "Keep" sampleNote
        [(1, ("rawB", "fmtB")), (0, ("rawA", "fmtA"))] =
      (["rawA", "rawB"], ["fmtA", "fmtB"]) := by
  have h := c8_results_in_attachment_order (fun _ => true) "Keep" sampleNote
    (fun p => if p = "Keep/a.png" then ("rawA", "fmtA") else ("rawB", "fmtB"))
    [(1, ("rawB", "fmtB")), (0, ("rawA", "fmtA"))] (by decide)
  exact h.trans (by decide)

/-- C9.  In every state reachable by interleaving concurrent `ocr_image`
calls, at most `limit` extraction operations hold the semaphore at once;
a cache-hit task never waits on nor holds the semaphore; and at the level
of `ocr_image` itself a cache hit consumes no slot and performs no
extraction. -/
theorem c9_ocr_concurrency_bounded (limit : Nat) (cache : Cache)
    (paths : List String) (s : List OcrTask)
    (h : OcrReachable limit cache paths s) :
    slotCount s ≤ limit ∧
    (∀ t ∈ s, t.1 = true → t.2 ≠ OcrPhase.waiting ∧ t.2 ≠ OcrPhase.extracting) ∧
    (∀ env p, ocrHit cache p = true →
      (ocr_image env cache p).slots = 0 ∧ (ocr_image env cache p).extractions = 0) := by
  obtain ⟨h1, h2⟩ := ocrReachable_invariant h
  refine ⟨h1, ?_, ?_⟩
  · intro t ht htrue
    rcases h2 t ht htrue with hp | hp <;> rw [hp] <;> exact ⟨by simp, by simp⟩
  · intro env p hhit
    rw [ocrHit_iff] at hhit
    obtain ⟨v, hfind, hvne⟩ := hhit
    rw [ocr_image_hit env cache p v hfind hvne]
    exact ⟨rfl, rfl⟩

/-- C9 witness: the initial state of two concurrent calls against a cache
holding a hit for `img.png` satisfies the bound, and the hit consumes no
slot. -/
theorem c9_ocr_concurrency_bounded_witness :
    slotCount (ocrInit cacheWithTextEntry ["img.png", "other.png"]) ≤ 4 ∧
    (ocr_image envExtractFails cacheWithTextEntry "img.png").slots = 0 :=
  ⟨(c9_ocr_concurrency_bounded 4 cacheWithTextEntry ["img.png", "other.png"]
      (ocrInit cacheWithTextEntry ["img.png", "other.png"]) Relation.ReflTransGen.refl).1,
   ((c9_ocr_concurrency_bounded 4 cacheWithTextEntry ["img.png", "other.png"]
      (ocrInit cacheWithTextEntry ["img.png", "other.png"]) Relation.ReflTransGen.refl).2.2
      envExtractFails "img.png" (by decide)).1⟩

/-- C10.  `ocr_image` always returns a string with no leading or trailing
whitespace: stripping its returned text is the identity. -/
theorem c10_ocr_text_stripped (env : OcrEnv) (cache : Cache) (p : String) :
    pyStrip (ocr_image env cache p).text = (ocr_image env cache p).text := by
  by_cases hhit : ocrHit cache p = true
  · rw [ocrHit_iff] at hhit
    obtain ⟨v, hfind, hvne⟩ := hhit
    rw [ocr_image_hit env cache p v hfind hvne]
    exact pyStrip_idem v
  · have hm := ocr_image_miss env cache p (by simpa using hhit)
    rw [hm]
    cases hx : env.extract p with
    | some raw =>
      simp only [ocrMissBranch, hx]
      exact pyStrip_idem raw
    | none =>
      simp only [ocrMissBranch, hx]
      decide
